import Mathlib

/-
Verification of the Wikipedia presidential chatbot (a10.py).

Shallow embedding: the external collaborators (the wikipedia page source,
the BeautifulSoup markup parser, and the Python regex engine) are modelled
as an oracle structure `Env`; Python exceptions are modelled by the
`Except PyErr` monad; the global `previous_name` (ContextMemory) is passed
and returned explicitly by the dispatcher.  Python strings are Lean
`String`, Python lists are Lean `List`.
-/

/-- Python exception classes that the program can raise. -/
inductive PyErr where
  | typeError
  | indexError
  | lookupError (msg : String)
  | attributeError (msg : String)
  | keyboardInterrupt
deriving DecidableEq

/-- A Python `re.Match` object, reduced to its group lookup (`m.group(name)`). -/
def PyMatch : Type := String → String

/-- The external collaborators: `wikipedia.search`, page html fetch,
BeautifulSoup infobox lookup, `re.search` (with DOTALL and IGNORECASE as in
`get_match`) and `re.findall`.  Each is an oracle: the embedding proves what
the program does for every possible behaviour of these services. -/
structure Env where
  wikiSearch : String → List String
  pageHtml : String → String
  findInfobox : String → Option String
  reSearch : String → String → Option PyMatch
  findall : String → String → List String

/-- Characters of Python `string.printable`: visible ASCII, space, and the
whitespace characters tab, newline, carriage return, vertical tab, form feed. -/
def pyPrintable (c : Char) : Bool :=
  (32 ≤ c.toNat && c.toNat ≤ 126) || c = '\t' || c = '\n' || c = '\r'
    || c.toNat = 11 || c.toNat = 12

/-- Python whitespace characters stripped by `str.strip()`. -/
def pyIsSpace (c : Char) : Bool :=
  c = ' ' || c = '\t' || c = '\n' || c = '\r' || c.toNat = 11 || c.toNat = 12

/-- Collapses every run of the character `t` to a single occurrence:
the effect of `re.sub(t+"+", t, s)` used in `clean_text`. -/
def collapseChar (t : Char) : List Char → List Char
  | [] => []
  | c :: cs =>
    match collapseChar t cs with
    | [] => [c]
    | d :: ds => if c = t ∧ d = t then d :: ds else c :: d :: ds

/-- clean_text from a10.py: replace non-printable characters by spaces, then
collapse duplicate spaces and duplicate newlines. -/
def clean_text (text : String) : String :=
  let only_ascii := text.data.map (fun c => if pyPrintable c then c else ' ')
  let no_dup_spaces := collapseChar ' ' only_ascii
  let no_dup_newlines := collapseChar '\n' no_dup_spaces
  String.mk no_dup_newlines

/-- Python `s.split(",")` on the character list of `s`. -/
def pySplitComma : List Char → List (List Char)
  | [] => [[]]
  | c :: cs =>
    if c = ',' then [] :: pySplitComma cs
    else
      match pySplitComma cs with
      | [] => [[c]]
      | g :: gs => (c :: g) :: gs

/-- Python `str.strip()` on a character list: drop whitespace at both ends. -/
def pyStripL (l : List Char) : List Char :=
  ((l.dropWhile pyIsSpace).reverse.dropWhile pyIsSpace).reverse

/-- Python `str.strip()`. -/
def pyStrip (s : String) : String := String.mk (pyStripL s.data)

/-- lower-casing of a string, character by character (ASCII case folding,
enough for the token comparison of the matcher). -/
def pyLower (s : String) : String := String.mk (s.data.map Char.toLower)

/-- Python `" ".join(matches)`. -/
def joinSpace (ms : List String) : String := String.intercalate " " ms

/-- get_page_html from a10.py: `wikipedia.search(title)` then take
`results[0]` (IndexError when the search returns no results) and fetch
its html. -/
def get_page_html (env : Env) (title : String) : Except PyErr String :=
  match env.wikiSearch title with
  | [] => .error .indexError
  | r :: _ => .ok (env.pageHtml r)

/-- get_first_infobox_text from a10.py: first "infobox"-class block of the
page, raising LookupError("Page has no infobox") when there is none. -/
def get_first_infobox_text (env : Env) (html : String) : Except PyErr String :=
  match env.findInfobox html with
  | none => .error (.lookupError "Page has no infobox")
  | some t => .ok t

/-- get_match from a10.py: `re.compile(pattern, DOTALL|IGNORECASE).search(text)`,
raising AttributeError(error_text) when the pattern does not match. -/
def get_match (env : Env) (text pattern error_text : String) : Except PyErr PyMatch :=
  match env.reSearch pattern text with
  | none => .error (.attributeError error_text)
  | some m => .ok m

/-- regex of get_incumbency_start, primary infobox layout. -/
def startPattern : String :=
  "President of the United StatesIn office+(?P<officestart>[A-Za-z]+\\s+\\d\x7b1,2\x7d,\\s+\\d\x7b4\x7d)"

/-- fallback regex shared by get_incumbency_start and get_incumbency_end
for the "Incumbent Assumed office" infobox layout. -/
def incumbentAssumedPattern : String :=
  "IncumbentAssumed office\\s+(?P<officestart>[A-Za-z]+\\s+\\d\x7b1,2\x7d,\\s+\\d\x7b4\x7d)"

/-- regex of get_incumbency_end, primary infobox layout. -/
def endPattern : String :=
  "President of the United StatesIn office+([A-Za-z]+\\s+\\d\x7b1,2\x7d,\\s+\\d\x7b4\x7d)\\s+(?P<officeend>[A-Za-z]+\\s+\\d\x7b1,2\x7d,\\s+\\d\x7b4\x7d)"

/-- regex of get_number. -/
def numberPattern : String :=
  "(\\d\x7b2\x7d)(?=(?:st|nd|rd|th)\\b(?: & \\b\\d+(?:st|nd|rd|th)\\b)? President of the United States)"

/-- get_incumbency_start from a10.py: fetch, clean, match the primary
pattern; on AttributeError retry the "IncumbentAssumed office" fallback. -/
def get_incumbency_start (env : Env) (name : String) : Except PyErr String :=
  match get_page_html env name with
  | .error e => .error e
  | .ok html =>
    match get_first_infobox_text env html with
    | .error e => .error e
    | .ok ib =>
      let infobox_text := clean_text ib
      let error_text := "Page infobox has no incumbency start information"
      match get_match env infobox_text startPattern error_text with
      | .ok m => .ok (m "officestart")
      | .error (.attributeError _) =>
        match get_match env infobox_text incumbentAssumedPattern error_text with
        | .ok m => .ok (m "officestart")
        | .error e => .error e
      | .error e => .error e

/-- get_incumbency_end from a10.py: fetch, clean, match the primary
two-date pattern and return its "officeend" group; on AttributeError retry
the "IncumbentAssumed office" fallback and return "Current incumbent". -/
def get_incumbency_end (env : Env) (name : String) : Except PyErr String :=
  match get_page_html env name with
  | .error e => .error e
  | .ok html =>
    match get_first_infobox_text env html with
    | .error e => .error e
    | .ok ib =>
      let infobox_text := clean_text ib
      let error_text := "Page infobox has no incumbency end information"
      match get_match env infobox_text endPattern error_text with
      | .ok m => .ok (m "officeend")
      | .error (.attributeError _) =>
        match get_match env infobox_text incumbentAssumedPattern error_text with
        | .ok m => let _ := m "officestart"; .ok "Current incumbent"
        | .error e => .error e
      | .error e => .error e

/-- get_number from a10.py: `re.findall` of the ordinal pattern over the
cleaned infobox text, raising AttributeError when there is no match. -/
def get_number (env : Env) (name : String) : Except PyErr (List String) :=
  match get_page_html env name with
  | .error e => .error e
  | .ok html =>
    match get_first_infobox_text env html with
    | .error e => .error e
    | .ok ib =>
      let found := env.findall numberPattern (clean_text ib)
      if found = [] then
        .error (.attributeError "Page infobox has no presidential number information")
      else .ok found

/-- handler incumbency_start from a10.py. -/
def incumbency_start (env : Env) (ms : List String) : Except PyErr (List String) :=
  match get_incumbency_start env (joinSpace ms) with
  | .error e => .error e
  | .ok d => .ok [d]

/-- handler incumbency_start_year from a10.py:
`[date.split(",")[1].strip() if date else "No answers"]`. -/
def incumbency_start_year (env : Env) (ms : List String) : Except PyErr (List String) :=
  match get_incumbency_start env (joinSpace ms) with
  | .error e => .error e
  | .ok date =>
    if date = "" then .ok ["No answers"]
    else
      match (pySplitComma date.data).get? 1 with
      | none => .error .indexError
      | some g => .ok [String.mk (pyStripL g)]

/-- handler incumbency_end from a10.py. -/
def incumbency_end (env : Env) (ms : List String) : Except PyErr (List String) :=
  match get_incumbency_end env (joinSpace ms) with
  | .error e => .error e
  | .ok d => .ok [d]

/-- handler incumbency_end_year from a10.py:
`[date.split(",")[1].strip() if date else "No answers"]`. -/
def incumbency_end_year (env : Env) (ms : List String) : Except PyErr (List String) :=
  match get_incumbency_end env (joinSpace ms) with
  | .error e => .error e
  | .ok date =>
    if date = "" then .ok ["No answers"]
    else
      match (pySplitComma date.data).get? 1 with
      | none => .error .indexError
      | some g => .ok [String.mk (pyStripL g)]

/-- handler number from a10.py: join the first two findall results with
" & " when there is more than one, otherwise return the result list. -/
def number (env : Env) (ms : List String) : Except PyErr (List String) :=
  match get_number env (joinSpace ms) with
  | .error e => .error e
  | .ok results =>
    match results with
    | a :: b :: _ => .ok [a ++ " & " ++ b]
    | _ => .ok results

/-- bye_action from a10.py: unconditionally raises KeyboardInterrupt. -/
def bye_action (_dummy : List String) : Except PyErr (List String) :=
  .error .keyboardInterrupt

/-- an Action of the pattern-action list. -/
def PyAction : Type := List String → Except PyErr (List String)

/-- Modelled from the spec: the repository imports `match` from a module
match.py that is not under src/; spec section 4.1 describes it.  `starLoop`
is the exhaustive wildcard scan: it tries every contiguous span of the
remaining input (shortest first, including the empty span) as the capture
of the wildcard and requires the rest of the pattern to match the rest of
the input.  `f` is the continuation matching the remainder of the pattern. -/
def starLoop (f : List String → Option (List String)) : List String → Option (List String)
  | [] => f []
  | s :: ss =>
    match f (s :: ss) with
    | some r => some r
    | none =>
      match starLoop f ss with
      | some r => some (s :: r)
      | none => none

/-- Modelled from the spec: the wildcard-aware template matcher `match` of
match.py (spec 4.1), named `pmatch` here because `match` is reserved in
Lean.  Non-wildcard tokens must equal the input token at the same position
(case-insensitively); the wildcard token "%" captures a contiguous run of
zero or more input tokens; the result is `some capture` on success and the
sentinel `none` on failure. -/
def pmatch (pat src : List String) : Option (List String) :=
  match pat, src with
  | [], src => if src.isEmpty then some [] else none
  | p :: ps, src =>
    if p = "%" then starLoop (fun rest => pmatch ps rest) src
    else
      match src with
      | [] => none
      | s :: ss => if pyLower p = pyLower s then pmatch ps ss else none
termination_by structural pat

/-- pa_list from a10.py: the ordered pattern-action table. -/
def pa_list (env : Env) : List (List String × PyAction) :=
  [ (["when", "did", "%", "take", "office"], incumbency_start env),
    (["when", "did", "%", "become", "president"], incumbency_start env),
    (["what", "year", "did", "%", "take", "office"], incumbency_start_year env),
    (["what", "year", "did", "%", "become", "president"], incumbency_start_year env),
    (["when", "did", "%", "begin", "his", "presidency"], incumbency_start env),
    (["what", "year", "did", "%", "begin", "his", "presidency"], incumbency_start_year env),
    (["when", "did", "%", "leave", "office"], incumbency_end env),
    (["when", "did", "%", "end", "his", "presidency"], incumbency_end env),
    (["what", "year", "did", "%", "leave", "office"], incumbency_end_year env),
    (["when", "year", "did", "%", "end", "his", "presidency"], incumbency_end_year env),
    (["what", "number", "president", "is", "%"], number env),
    (["what", "number", "president", "was", "%"], number env),
    (["which", "number", "president", "is", "%"], number env),
    (["which", "number", "president", "was", "%"], number env),
    (["bye"], bye_action) ]

/-- The loop body of search_pa_list over the remaining table entries.
The state `prev` is the global `previous_name`; the pair returned is
(result or raised exception, final value of `previous_name`).

The first Python condition
`mat is not None and "he" in mat or "they" in mat and previous_name is not None`
parses as `(mat is not None and "he" in mat) or ("they" in mat and previous_name is not None)`;
when `mat` is None the left disjunct is False and evaluating `"they" in mat`
raises TypeError, so a non-matching entry raises instead of moving to the
next entry.  `previous_name is not None` is always True because the global
only ever holds strings.  When `mat` is a list the second `if mat is not None`
is therefore always taken, and `previous_name = mat[0]` raises IndexError on
an empty capture. -/
def searchEntries : List (List String × PyAction) → String → List String →
    Except PyErr (List String) × String
  | [], prev, _ => (.ok ["I don\x27t understand"], prev)
  | (pat, act) :: _rest, prev, src =>
    match pmatch pat src with
    | none => (.error .typeError, prev)
    | some m =>
      if "he" ∈ m ∨ "they" ∈ m then
        match act [prev] with
        | .error e => (.error e, prev)
        | .ok answer => (.ok (if answer = [] then ["No answers"] else answer), prev)
      else
        match act m with
        | .error e => (.error e, prev)
        | .ok answer =>
          match m with
          | [] => (.error .indexError, prev)
          | x :: _ => (.ok (if answer = [] then ["No answers"] else answer), x)

/-- search_pa_list from a10.py, with the global `previous_name` passed and
returned explicitly. -/
def search_pa_list (env : Env) (previous_name : String) (src : List String) :
    Except PyErr (List String) × String :=
  searchEntries (pa_list env) previous_name src

deriving instance DecidableEq for Except

/-- the head entry of the table fails to match: evaluating `"they" in None`
in the first condition raises TypeError. -/
theorem searchEntries_cons_nomatch {pat : List String} {act : PyAction}
    {rest : List (List String × PyAction)} {prev : String} {src : List String}
    (h : pmatch pat src = none) :
    searchEntries ((pat, act) :: rest) prev src = (.error .typeError, prev) := by
  simp [searchEntries, h]

/-- the head entry matches and the capture holds a pronoun marker, and the
action raises: the exception propagates and the state is unchanged. -/
theorem searchEntries_cons_pronoun_err {pat : List String} {act : PyAction}
    {rest : List (List String × PyAction)} {prev : String} {src m : List String}
    (h : pmatch pat src = some m) (hp : "he" ∈ m ∨ "they" ∈ m) {e : PyErr}
    (ha : act [prev] = .error e) :
    searchEntries ((pat, act) :: rest) prev src = (.error e, prev) := by
  simp only [searchEntries, h]
  rw [if_pos hp, ha]

/-- the head entry matches and the capture holds a pronoun marker: the
action is applied to `[previous_name]` and the state is unchanged. -/
theorem searchEntries_cons_pronoun_ok {pat : List String} {act : PyAction}
    {rest : List (List String × PyAction)} {prev : String} {src m : List String}
    (h : pmatch pat src = some m) (hp : "he" ∈ m ∨ "they" ∈ m) {ans : List String}
    (ha : act [prev] = .ok ans) :
    searchEntries ((pat, act) :: rest) prev src =
      (.ok (if ans = [] then ["No answers"] else ans), prev) := by
  simp only [searchEntries, h]
  rw [if_pos hp, ha]

/-- the head entry matches without a pronoun marker and the action raises:
the exception propagates and the state is unchanged. -/
theorem searchEntries_cons_normal_err {pat : List String} {act : PyAction}
    {rest : List (List String × PyAction)} {prev : String} {src m : List String}
    (h : pmatch pat src = some m) (h1 : "he" ∉ m) (h2 : "they" ∉ m) {e : PyErr}
    (ha : act m = .error e) :
    searchEntries ((pat, act) :: rest) prev src = (.error e, prev) := by
  simp only [searchEntries, h]
  rw [if_neg (by simp [h1, h2]), ha]

/-- the head entry matches with an empty capture and the action returns:
`previous_name = mat[0]` raises IndexError and the state is unchanged. -/
theorem searchEntries_cons_normal_nil {pat : List String} {act : PyAction}
    {rest : List (List String × PyAction)} {prev : String} {src : List String}
    (h : pmatch pat src = some []) {ans : List String} (ha : act [] = .ok ans) :
    searchEntries ((pat, act) :: rest) prev src = (.error .indexError, prev) := by
  simp only [searchEntries, h]
  rw [if_neg (by simp), ha]

/-- the head entry matches a non-empty capture without a pronoun marker:
the action is applied to the capture and `previous_name` is set to its
first token. -/
theorem searchEntries_cons_normal_ok {pat : List String} {act : PyAction}
    {rest : List (List String × PyAction)} {prev : String} {src : List String}
    {x : String} {xs : List String}
    (h : pmatch pat src = some (x :: xs)) (h1 : "he" ∉ x :: xs) (h2 : "they" ∉ x :: xs)
    {ans : List String} (ha : act (x :: xs) = .ok ans) :
    searchEntries ((pat, act) :: rest) prev src =
      (.ok (if ans = [] then ["No answers"] else ans), x) := by
  simp only [searchEntries, h]
  rw [if_neg (by simp [h1, h2]), ha]

/-- any normally returned answer list of the dispatcher loop is non-empty. -/
theorem searchEntries_ok_ne_nil :
    ∀ (entries : List (List String × PyAction)) (prev : String) (src l : List String)
      (s : String), searchEntries entries prev src = (.ok l, s) → l ≠ [] := by
  intro entries prev src l s h
  cases entries with
  | nil =>
    simp only [searchEntries, Prod.mk.injEq, Except.ok.injEq] at h
    obtain ⟨h1, _⟩ := h
    subst h1
    simp
  | cons e rest =>
    obtain ⟨pat, act⟩ := e
    cases hm : pmatch pat src with
    | none => rw [searchEntries_cons_nomatch hm] at h; simp at h
    | some m =>
      by_cases hp : "he" ∈ m ∨ "they" ∈ m
      · cases ha : act [prev] with
        | error e2 => rw [searchEntries_cons_pronoun_err hm hp ha] at h; simp at h
        | ok ans =>
          rw [searchEntries_cons_pronoun_ok hm hp ha] at h
          simp only [Prod.mk.injEq, Except.ok.injEq] at h
          obtain ⟨h1, _⟩ := h
          subst h1
          by_cases he : ans = [] <;> simp [he]
      · have h1 : "he" ∉ m := fun c => hp (Or.inl c)
        have h2 : "they" ∉ m := fun c => hp (Or.inr c)
        cases ha : act m with
        | error e2 => rw [searchEntries_cons_normal_err hm h1 h2 ha] at h; simp at h
        | ok ans =>
          cases m with
          | nil => rw [searchEntries_cons_normal_nil hm ha] at h; simp at h
          | cons x xs =>
            rw [searchEntries_cons_normal_ok hm h1 h2 ha] at h
            simp only [Prod.mk.injEq, Except.ok.injEq] at h
            obtain ⟨hh, _⟩ := h
            subst hh
            by_cases he : ans = [] <;> simp [he]

/-- whenever the dispatcher loop lets an exception escape, the state
`previous_name` is returned unchanged. -/
theorem searchEntries_error_preserves :
    ∀ (entries : List (List String × PyAction)) (prev : String) (src : List String)
      (e : PyErr) (s : String), searchEntries entries prev src = (.error e, s) → s = prev := by
  intro entries prev src e s h
  cases entries with
  | nil => simp [searchEntries] at h
  | cons en rest =>
    obtain ⟨pat, act⟩ := en
    cases hm : pmatch pat src with
    | none =>
      rw [searchEntries_cons_nomatch hm] at h
      simp only [Prod.mk.injEq] at h
      exact h.2.symm
    | some m =>
      by_cases hp : "he" ∈ m ∨ "they" ∈ m
      · cases ha : act [prev] with
        | error e2 =>
          rw [searchEntries_cons_pronoun_err hm hp ha] at h
          simp only [Prod.mk.injEq] at h
          exact h.2.symm
        | ok ans => rw [searchEntries_cons_pronoun_ok hm hp ha] at h; simp at h
      · have h1 : "he" ∉ m := fun c => hp (Or.inl c)
        have h2 : "they" ∉ m := fun c => hp (Or.inr c)
        cases ha : act m with
        | error e2 =>
          rw [searchEntries_cons_normal_err hm h1 h2 ha] at h
          simp only [Prod.mk.injEq] at h
          exact h.2.symm
        | ok ans =>
          cases m with
          | nil =>
            rw [searchEntries_cons_normal_nil hm ha] at h
            simp only [Prod.mk.injEq] at h
            exact h.2.symm
          | cons x xs => rw [searchEntries_cons_normal_ok hm h1 h2 ha] at h; simp at h

/-- a comma-free character list is split into a single group. -/
theorem pySplitComma_no_comma : ∀ (l : List Char), ',' ∉ l → pySplitComma l = [l] := by
  intro l h
  induction l with
  | nil => rfl
  | cons c cs ih =>
    simp only [pySplitComma]
    rw [if_neg (fun hc => h (by rw [hc]; exact List.mem_cons_self ',' cs))]
    rw [ih (fun hm => h (List.mem_cons_of_mem c hm))]

/-- splitting at the first comma of `a ++ "," ++ b` when `a` is comma-free. -/
theorem pySplitComma_append : ∀ (a b : List Char), ',' ∉ a →
    pySplitComma (a ++ ',' :: b) = a :: pySplitComma b := by
  intro a
  induction a with
  | nil =>
    intro b _
    simp [pySplitComma]
  | cons c cs ih =>
    intro b h
    have hc : ¬(c = ',') := fun hc => h (by rw [hc]; exact List.mem_cons_self ',' cs)
    have ihb := ih b (fun hm => h (List.mem_cons_of_mem c hm))
    show pySplitComma (c :: (cs ++ ',' :: b)) = (c :: cs) :: pySplitComma b
    simp only [pySplitComma]
    rw [if_neg hc, ihb]

/-- stripping ignores a leading space. -/
theorem pyStripL_cons_space (l : List Char) : pyStripL (' ' :: l) = pyStripL l := by
  simp [pyStripL, List.dropWhile_cons, pyIsSpace]

/-- appending strings concatenates their character lists. -/
theorem string_data_append (s t : String) : (s ++ t).data = s.data ++ t.data := rfl

/-- demonstration page source: every subject resolves to a page of its own
name whose infobox text is "IB:" followed by the page title, and every regex
search succeeds with a group value derived from the searched text. -/
def envSubject : Env :=
  Env.mk (fun s => [s]) (fun t => t) (fun t => some ("IB:" ++ t))
    (fun _ t => some (fun _ => "D(" ++ t ++ ")")) (fun _ _ => [])

/-- page source whose search returns no results for any title. -/
def envNoResults : Env :=
  Env.mk (fun _ => []) (fun t => t) (fun _ => none) (fun _ _ => none) (fun _ _ => [])

/-- Claim C1: the spec and the docstring of search_pa_list say that a
tokenized query matching no Action Table entry returns exactly
["I don\x27t understand"] without touching ContextMemory and without raising.
The code instead raises TypeError for every such query: when the first table
entry fails to match, `mat` is None and the condition
`mat is not None and "he" in mat or "they" in mat and previous_name is not None`
evaluates `"they" in None`.  ContextMemory is indeed left unchanged. -/
theorem c1_unmatched_query_raises_type_error (env : Env) (previous_name : String) :
    search_pa_list env previous_name ["what", "is", "the", "weather"] =
      (.error .typeError, previous_name) := by
  have hm : pmatch ["when", "did", "%", "take", "office"]
      ["what", "is", "the", "weather"] = none := by decide
  exact searchEntries_cons_nomatch hm

/-- Claim C2, counterexample: the claim requires ContextMemory to be
non-empty for pronoun substitution, but the code substitutes whenever the
capture holds "he" or "they" (the only context check is `is not None`,
which is always true).  With ContextMemory = "" the query
"when did he take office" captures ["he"], yet the handler receives [""]
(producing the answer for subject "" rather than for subject "he") and
ContextMemory is not set to the first captured token. -/
theorem c2_counterexample :
    pmatch ["when", "did", "%", "take", "office"]
        ["when", "did", "he", "take", "office"] = some ["he"]
      ∧ search_pa_list envSubject "" ["when", "did", "he", "take", "office"]
          = (.ok ["D(IB:)"], "")
      ∧ search_pa_list envSubject "" ["when", "did", "he", "take", "office"]
          ≠ (.ok ["D(IB:he)"], "he") :=
  ⟨by decide, by decide, by decide⟩

/-- Claim C2 as amended: on a successful pattern match, if the captured
tokens contain "he" or "they" — regardless of whether ContextMemory is
empty — the handler is invoked with [ContextMemory] as its sole argument
and ContextMemory is not updated; otherwise (for a non-empty capture) the
handler is invoked with the literal captured tokens and, after the handler
returns, ContextMemory is set to the first captured token. -/
theorem c2_pronoun_branch_amended :
    (∀ (pat : List String) (act : PyAction) (rest : List (List String × PyAction))
       (prev : String) (src m ans : List String),
       pmatch pat src = some m → ("he" ∈ m ∨ "they" ∈ m) → act [prev] = .ok ans →
       searchEntries ((pat, act) :: rest) prev src =
         (.ok (if ans = [] then ["No answers"] else ans), prev)) ∧
    (∀ (pat : List String) (act : PyAction) (rest : List (List String × PyAction))
       (prev : String) (src : List String) (x : String) (xs ans : List String),
       pmatch pat src = some (x :: xs) → "he" ∉ x :: xs → "they" ∉ x :: xs →
       act (x :: xs) = .ok ans →
       searchEntries ((pat, act) :: rest) prev src =
         (.ok (if ans = [] then ["No answers"] else ans), x)) := by
  constructor
  · intro pat act rest prev src m ans hm hp ha
    exact searchEntries_cons_pronoun_ok hm hp ha
  · intro pat act rest prev src x xs ans hm h1 h2 ha
    exact searchEntries_cons_normal_ok hm h1 h2 ha

theorem c2_pronoun_branch_amended_witness :
    search_pa_list envSubject "" ["when", "did", "he", "take", "office"]
      = (.ok ["D(IB:)"], "") := by
  have h := c2_pronoun_branch_amended.1 ["when", "did", "%", "take", "office"]
    (incumbency_start envSubject) ((pa_list envSubject).tail) ""
    ["when", "did", "he", "take", "office"] ["he"] ["D(IB:)"]
    (by decide) (Or.inl (by decide)) (by decide)
  simpa using h

/-- Claim C3 (code bug): the spec invariant says a pronoun query with empty
ContextMemory must fail gracefully and not throw.  The code instead invokes
the handler with [""] and lets the extractor exception propagate out of
search_pa_list (here: wikipedia.search("") returns no results, so
results[0] raises IndexError).  The sibling pronoun query
"when did he leave office" does not even reach pronoun handling: it raises
TypeError at the first non-matching table entry. -/
theorem c3_pronoun_empty_context_raises :
    search_pa_list envNoResults "" ["when", "did", "he", "take", "office"]
        = (.error .indexError, "")
      ∧ search_pa_list envNoResults "" ["when", "did", "he", "leave", "office"]
        = (.error .typeError, "") :=
  ⟨by decide, by decide⟩

/-- Claim C4: the dispatcher sentinel contract.  A normally returned
answer list is never empty, and at the (only reachable) handler invocation
sites an empty handler result is normalized to ["No answers"], in both the
pronoun-substitution branch and the literal branch.  (The concrete handlers
of pa_list always return singleton lists or raise, so the table is stated
over an arbitrary action.) -/
theorem c4_empty_answer_normalized :
    (∀ (env : Env) (prev : String) (src l : List String) (s : String),
       search_pa_list env prev src = (.ok l, s) → l ≠ []) ∧
    (∀ (pat : List String) (act : PyAction) (rest : List (List String × PyAction))
       (prev : String) (src m : List String),
       pmatch pat src = some m → ("he" ∈ m ∨ "they" ∈ m) → act [prev] = .ok [] →
       searchEntries ((pat, act) :: rest) prev src = (.ok ["No answers"], prev)) ∧
    (∀ (pat : List String) (act : PyAction) (rest : List (List String × PyAction))
       (prev : String) (src : List String) (x : String) (xs : List String),
       pmatch pat src = some (x :: xs) → "he" ∉ x :: xs → "they" ∉ x :: xs →
       act (x :: xs) = .ok [] →
       searchEntries ((pat, act) :: rest) prev src = (.ok ["No answers"], x)) := by
  refine ⟨?_, ?_, ?_⟩
  · intro env prev src l s h
    exact searchEntries_ok_ne_nil (pa_list env) prev src l s h
  · intro pat act rest prev src m hm hp ha
    rw [searchEntries_cons_pronoun_ok hm hp ha, if_pos rfl]
  · intro pat act rest prev src x xs hm h1 h2 ha
    rw [searchEntries_cons_normal_ok hm h1 h2 ha, if_pos rfl]

theorem c4_empty_answer_normalized_witness :
    (["D(IB:grover cleveland)"] : List String) ≠ []
      ∧ searchEntries [(["hi", "%"], fun _ => Except.ok [])] "p" ["hi", "bob"]
        = (.ok ["No answers"], "bob") := by
  constructor
  · exact c4_empty_answer_normalized.1 envSubject "w"
      ["when", "did", "grover", "cleveland", "take", "office"]
      ["D(IB:grover cleveland)"] "grover" (by decide)
  · exact c4_empty_answer_normalized.2.2 ["hi", "%"] (fun _ => Except.ok []) [] "p"
      ["hi", "bob"] "bob" [] (by decide) (by decide) (by decide) rfl

/-- Claim C5: get_incumbency_end returns the "officeend" group of the
"In office start end" layout; when that pattern fails but the fallback
"IncumbentAssumed office start" pattern matches it returns the literal
"Current incumbent"; when both fail it raises AttributeError. -/
theorem c5_get_incumbency_end_cases (env : Env) (name r ib : String) (rs : List String)
    (hs : env.wikiSearch name = r :: rs)
    (hb : env.findInfobox (env.pageHtml r) = some ib) :
    (∀ m : PyMatch, env.reSearch endPattern (clean_text ib) = some m →
       get_incumbency_end env name = .ok (m "officeend")) ∧
    (env.reSearch endPattern (clean_text ib) = none →
       (∀ m : PyMatch, env.reSearch incumbentAssumedPattern (clean_text ib) = some m →
          get_incumbency_end env name = .ok "Current incumbent") ∧
       (env.reSearch incumbentAssumedPattern (clean_text ib) = none →
          get_incumbency_end env name =
            .error (.attributeError "Page infobox has no incumbency end information"))) := by
  refine ⟨?_, fun h1 => ⟨?_, ?_⟩⟩
  · intro m hm
    simp only [get_incumbency_end, get_page_html, hs, get_first_infobox_text, hb,
      get_match, hm]
  · intro m hm
    simp only [get_incumbency_end, get_page_html, hs, get_first_infobox_text, hb,
      get_match, h1, hm]
  · intro h2
    simp only [get_incumbency_end, get_page_html, hs, get_first_infobox_text, hb,
      get_match, h1, h2]

/-- the fallback match object used by the demonstration environment. -/
def currentGroup : PyMatch := fun _ => "January 20, 2025"

/-- page source on which the primary incumbency-end pattern fails but the
fallback incumbent pattern matches. -/
def envCurrent : Env :=
  Env.mk (fun s => [s]) (fun t => t) (fun _ => some "T")
    (fun p _ => if p = endPattern then none else some currentGroup) (fun _ _ => [])

theorem c5_get_incumbency_end_cases_witness :
    get_incumbency_end envCurrent "gerald ford" = .ok "Current incumbent" := by
  have h := (c5_get_incumbency_end_cases envCurrent "gerald ford" "gerald ford" "T" []
    rfl rfl).2
  have h1 : envCurrent.reSearch endPattern (clean_text "T") = none := by
    show (if endPattern = endPattern then none else some currentGroup) = none
    rw [if_pos rfl]
  have h2 : envCurrent.reSearch incumbentAssumedPattern (clean_text "T")
      = some currentGroup := by
    show (if incumbentAssumedPattern = endPattern then none else some currentGroup)
      = some currentGroup
    rw [if_neg (by decide)]
  exact (h h1).1 currentGroup h2

/-- the second component of the comma split of a well-formed date. -/
theorem date_split_second (month day year : String)
    (hm : ',' ∉ month.data) (hd : ',' ∉ day.data) (hy : ',' ∉ year.data) :
    (month ++ " " ++ day ++ ", " ++ year) ≠ ""
      ∧ (pySplitComma (month ++ " " ++ day ++ ", " ++ year).data).get? 1
        = some (' ' :: year.data) := by
  have hdata : (month ++ " " ++ day ++ ", " ++ year).data
      = (month.data ++ ' ' :: day.data) ++ ',' :: ' ' :: year.data := by
    show month.data ++ [' '] ++ day.data ++ [',', ' '] ++ year.data = _
    simp [List.append_assoc]
  have hA : ',' ∉ month.data ++ ' ' :: day.data := by
    intro hmem
    rcases List.mem_append.1 hmem with h1 | h1
    · exact hm h1
    · rcases List.mem_cons.1 h1 with h2 | h2
      · exact absurd h2.symm (by decide)
      · exact hd h2
  have hrest : ',' ∉ ' ' :: year.data := by
    intro hmem
    rcases List.mem_cons.1 hmem with h2 | h2
    · exact absurd h2.symm (by decide)
    · exact hy h2
  constructor
  · intro h
    have hdnil : (month ++ " " ++ day ++ ", " ++ year).data = [] := by rw [h]
    rw [hdata] at hdnil
    simp at hdnil
  · rw [hdata, pySplitComma_append _ _ hA, pySplitComma_no_comma _ hrest]
    rfl

/-- Claim C6: for a well-formed extracted date "Month Day, Year" the
year-only handlers return the year trimmed of surrounding whitespace,
obtained by splitting the date on "," and taking the second component; an
empty (falsy) extracted date yields the literal "No answers". -/
theorem c6_year_handlers (env : Env) (ms : List String) (month day year : String)
    (hm : ',' ∉ month.data) (hd : ',' ∉ day.data) (hy : ',' ∉ year.data) :
    (get_incumbency_start env (joinSpace ms) = .ok (month ++ " " ++ day ++ ", " ++ year) →
       incumbency_start_year env ms = .ok [pyStrip year]) ∧
    (get_incumbency_end env (joinSpace ms) = .ok (month ++ " " ++ day ++ ", " ++ year) →
       incumbency_end_year env ms = .ok [pyStrip year]) ∧
    (get_incumbency_start env (joinSpace ms) = .ok "" →
       incumbency_start_year env ms = .ok ["No answers"]) ∧
    (get_incumbency_end env (joinSpace ms) = .ok "" →
       incumbency_end_year env ms = .ok ["No answers"]) := by
  obtain ⟨hne, hsplit⟩ := date_split_second month day year hm hd hy
  refine ⟨?_, ?_, ?_, ?_⟩
  · intro h
    simp only [incumbency_start_year, h]
    rw [if_neg hne, hsplit]
    show Except.ok [String.mk (pyStripL (' ' :: year.data))] = _
    rw [pyStripL_cons_space]
    rfl
  · intro h
    simp only [incumbency_end_year, h]
    rw [if_neg hne, hsplit]
    show Except.ok [String.mk (pyStripL (' ' :: year.data))] = _
    rw [pyStripL_cons_space]
    rfl
  · intro h
    simp [incumbency_start_year, h]
  · intro h
    simp [incumbency_end_year, h]

/-- page source whose regex engine always yields the date March 4, 1861. -/
def envMarch : Env :=
  Env.mk (fun s => [s]) (fun t => t) (fun _ => some "T")
    (fun _ _ => some (fun _ => "March 4, 1861")) (fun _ _ => [])

theorem c6_year_handlers_witness :
    incumbency_start_year envMarch ["abraham", "lincoln"] = .ok ["1861"] := by
  have h := (c6_year_handlers envMarch ["abraham", "lincoln"] "March" "4" "1861"
    (by decide) (by decide) (by decide)).1 (by decide)
  have e : pyStrip "1861" = "1861" := by decide
  rw [e] at h
  exact h

/-- Claim C7: the number handler always returns a single-element list on a
normal return; with exactly two findall matches the element is the two
numbers joined by " & "; with a single match it returns that match. -/
theorem c7_number_handler (env : Env) (ms rs : List String)
    (h : get_number env (joinSpace ms) = .ok rs) :
    (∃ a, number env ms = .ok [a]) ∧
    (∀ a b, rs = [a, b] → number env ms = .ok [a ++ " & " ++ b]) ∧
    (∀ a, rs = [a] → number env ms = .ok [a]) := by
  have hne : rs ≠ [] := by
    intro hnil
    subst hnil
    cases hp : get_page_html env (joinSpace ms) with
    | error e =>
      simp only [get_number, hp] at h
      exact Except.noConfusion h
    | ok html =>
      cases hi : get_first_infobox_text env html with
      | error e =>
        simp only [get_number, hp, hi] at h
        exact Except.noConfusion h
      | ok ib =>
        by_cases hf : env.findall numberPattern (clean_text ib) = []
        · simp only [get_number, hp, hi, if_pos hf] at h
          exact Except.noConfusion h
        · simp only [get_number, hp, hi, if_neg hf, Except.ok.injEq] at h
          exact hf h
  simp only [number, h]
  cases rs with
  | nil => exact absurd rfl hne
  | cons a t =>
    cases t with
    | nil =>
      refine ⟨⟨a, rfl⟩, ?_, ?_⟩
      · intro a2 b2 hh
        simp at hh
      · intro a2 hh
        rw [(List.cons.injEq .. ▸ hh : a :: ([] : List String) = [a2])]
    | cons b t2 =>
      refine ⟨⟨a ++ " & " ++ b, rfl⟩, ?_, ?_⟩
      · intro a2 b2 hh
        simp only [List.cons.injEq] at hh
        obtain ⟨h1, h2, h3⟩ := hh
        subst h1
        subst h2
        rfl
      · intro a2 hh
        simp at hh

/-- page source whose findall yields two ordinal matches. -/
def envTwoTerms : Env :=
  Env.mk (fun s => [s]) (fun t => t) (fun _ => some "T") (fun _ _ => none)
    (fun _ _ => ["16", "24"])

theorem c7_number_handler_witness :
    number envTwoTerms ["grover", "cleveland"] = .ok ["16 & 24"] := by
  have h := (c7_number_handler envTwoTerms ["grover", "cleveland"] ["16", "24"]
    (by decide)).2.1 "16" "24" rfl
  have e : "16" ++ " & " ++ "24" = "16 & 24" := by decide
  rw [e] at h
  exact h

/-- Claim C8: when the fetched page has no infobox block, the extraction
pipeline raises LookupError("Page has no infobox") and search_pa_list does
not catch it: for a query matching an extractor-backed entry the exception
propagates to the caller of the dispatcher, with ContextMemory unchanged. -/
theorem c8_no_infobox_propagates (env : Env) (prev : String)
    (hib : ∀ h : String, env.findInfobox h = none)
    (hs : env.wikiSearch "abraham lincoln" ≠ []) :
    search_pa_list env prev ["when", "did", "abraham", "lincoln", "take", "office"]
      = (.error (.lookupError "Page has no infobox"), prev) := by
  have hm : pmatch ["when", "did", "%", "take", "office"]
      ["when", "did", "abraham", "lincoln", "take", "office"]
      = some ["abraham", "lincoln"] := by decide
  have hact : incumbency_start env ["abraham", "lincoln"]
      = .error (.lookupError "Page has no infobox") := by
    have hj : joinSpace ["abraham", "lincoln"] = "abraham lincoln" := by decide
    simp only [incumbency_start, hj]
    cases hw : env.wikiSearch "abraham lincoln" with
    | nil => exact absurd hw hs
    | cons r t =>
      simp only [get_incumbency_start, get_page_html, hw, get_first_infobox_text, hib]
  exact searchEntries_cons_normal_err hm (by decide) (by decide) hact

/-- page source on which every page lacks an infobox. -/
def envNoBox : Env :=
  Env.mk (fun _ => ["Abraham Lincoln"]) (fun t => t) (fun _ => none) (fun _ _ => none)
    (fun _ _ => [])

theorem c8_no_infobox_propagates_witness :
    search_pa_list envNoBox "prev" ["when", "did", "abraham", "lincoln", "take", "office"]
      = (.error (.lookupError "Page has no infobox"), "prev") :=
  c8_no_infobox_propagates envNoBox "prev" (fun _ => rfl) (by decide)

/-- Claim C9: bye_action raises KeyboardInterrupt for every input, and
whenever the invoked action (or the dispatcher itself) raises,
search_pa_list leaves ContextMemory unchanged: the assignment to
previous_name happens only after the handler returns normally. -/
theorem c9_handler_error_leaves_context :
    (∀ l : List String, bye_action l = .error .keyboardInterrupt) ∧
    (∀ (env : Env) (prev : String) (src : List String) (e : PyErr) (s : String),
       search_pa_list env prev src = (.error e, s) → s = prev) :=
  ⟨fun _ => rfl,
   fun env prev src e s h => searchEntries_error_preserves (pa_list env) prev src e s h⟩

theorem c9_handler_error_leaves_context_witness :
    (search_pa_list envNoBox "old" ["when", "did", "ulysses", "grant", "take", "office"]).2
      = "old" :=
  c9_handler_error_leaves_context.2 envNoBox "old"
    ["when", "did", "ulysses", "grant", "take", "office"]
    (.lookupError "Page has no infobox")
    (search_pa_list envNoBox "old" ["when", "did", "ulysses", "grant", "take", "office"]).2
    (by decide)

/-- Claim C10: for a non-empty extracted date containing no comma, the
year handlers raise an uncaught IndexError from date.split(",")[1]. -/
theorem c10_comma_free_date_raises (env : Env) (ms : List String) (date : String)
    (hne : date ≠ "") (hc : ',' ∉ date.data) :
    (get_incumbency_start env (joinSpace ms) = .ok date →
       incumbency_start_year env ms = .error .indexError) ∧
    (get_incumbency_end env (joinSpace ms) = .ok date →
       incumbency_end_year env ms = .error .indexError) := by
  have hs : (pySplitComma date.data).get? 1 = none := by
    rw [pySplitComma_no_comma date.data hc]
    rfl
  constructor
  · intro h
    simp only [incumbency_start_year, h]
    rw [if_neg hne, hs]
  · intro h
    simp only [incumbency_end_year, h]
    rw [if_neg hne, hs]

/-- page source whose regex engine always yields the comma-free value
"Incumbent". -/
def envNoComma : Env :=
  Env.mk (fun s => [s]) (fun t => t) (fun _ => some "T")
    (fun _ _ => some (fun _ => "Incumbent")) (fun _ _ => [])

theorem c10_comma_free_date_raises_witness :
    incumbency_start_year envNoComma ["joe", "biden"] = .error .indexError :=
  (c10_comma_free_date_raises envNoComma ["joe", "biden"] "Incumbent"
    (by decide) (by decide)).1 (by decide)
